import Mathlib

/-!
Shallow embedding of `src/transcribe.cpp` (whisper-transcribe): the VAD
decision function `detect_voice_activity`, the transcription wrapper
`transcribe_audio_segment`, and the main segmentation loop of `main`
(lines 330-401), together with the startup/exit-code logic (lines 245-301).

Audio samples are opaque to the core (they are only copied, sliced and
counted), so they are modelled as rationals; VAD probabilities and the
threshold are modelled as rationals as well (the code only compares them
with `<` and takes a maximum).  External collaborators (the Silero VAD
context, the whisper model) are modelled as function records.
-/

namespace Transcribe

/-- Audio samples (32-bit floats in the source) are never arithmetically
combined by the core, only copied and counted; we model them as rationals. -/
abbrev Sample := ℚ

/-- WHISPER_SAMPLE_RATE constant from whisper.h (16 kHz). -/
def WHISPER_SAMPLE_RATE : Nat := 16000

/-- Model of the Silero VAD collaborator (`whisper_vad_context`):
`detect_speech` is the success flag of `whisper_vad_detect_speech` on a
given window, and `vad_probs` is the probability array the context holds
after that call (`whisper_vad_n_probs` / `whisper_vad_probs`); `none`
models a null probability pointer. -/
structure VadContext where
  detect_speech : List Sample → Bool
  vad_probs : List Sample → Option (List ℚ)

/-- Embedding of `detect_voice_activity` (transcribe.cpp lines 118-147):
null context or empty window gives `false`; a failed detect call gives
`false`; a null or empty probability array gives `false`; otherwise the
maximum probability is compared to the threshold with strict greater-than. -/
def detect_voice_activity (vad_ctx : Option VadContext) (audio_samples : List Sample)
    (vad_threshold : ℚ) : Bool :=
  match vad_ctx with
  | none => false
  | some ctx =>
    if audio_samples.isEmpty then false
    else if ctx.detect_speech audio_samples = false then false
    else
      match ctx.vad_probs audio_samples with
      | none => false
      | some [] => false
      | some (p :: ps) => decide (vad_threshold < ps.foldl max p)

/-- Ghost instrumentation of `detect_voice_activity`: how many times the
body calls `whisper_vad_detect_speech` (line 128).  It mirrors the control
flow of `detect_voice_activity`: the detector is invoked exactly when the
context is non-null and the window is non-empty. -/
def detect_voice_activity_detect_calls (vad_ctx : Option VadContext)
    (audio_samples : List Sample) : Nat :=
  match vad_ctx with
  | none => 0
  | some _ => if audio_samples.isEmpty then 0 else 1

/-- Modelled from the spec: the `::trim` helper from the `common.h` of
whisper.cpp (not part of src/), which the spec describes as removing
leading and trailing whitespace from the returned text. -/
def trimString (s : String) : String :=
  ⟨((s.data.dropWhile Char.isWhitespace).reverse.dropWhile Char.isWhitespace).reverse⟩

/-- Embedding of `transcribe_audio_segment` (transcribe.cpp lines 149-214).
The whisper collaborator (`whisper_full` plus segment extraction) is a
function from the sample buffer to `Option (List String)`; `none` models a
non-zero `whisper_full` return.  An empty segment short-circuits to `""`;
on success the segment texts are concatenated and trimmed. -/
def transcribe_audio_segment (whisper_run : List Sample → Option (List String))
    (pcmf32_segment : List Sample) : String :=
  if pcmf32_segment.isEmpty then ""
  else
    match whisper_run pcmf32_segment with
    | some texts => trimString (String.join texts)
    | none => ""

/-- The parameters of the main loop that the segmentation logic reads:
`n_samples_vad = silence_ms * WHISPER_SAMPLE_RATE / 1000` (line 291) and
the VAD threshold `vad_thold`. -/
structure Params where
  n_samples_vad : Nat
  vad_thold : ℚ

/-- The external collaborators the loop consults each tick. -/
structure Collaborators where
  vad_ctx : Option VadContext
  whisper_run : List Sample → Option (List String)

/-- The mutable state of the main loop: `in_speech` (line 330) and the
current segment buffer `pcmf32_segment` (line 288). -/
structure LoopState where
  in_speech : Bool
  pcmf32_segment : List Sample
deriving DecidableEq

/-- The trailing `n` elements of a list (or the whole list when it is
shorter), as produced by `copy(buf.end() - n, buf.end(), ...)` and
`insert(seg.end(), buf.end() - n, buf.end())`. -/
def lastN (n : Nat) (l : List α) : List α := l.drop (l.length - n)

/-- Per-tick VAD verdict (lines 352-358): `voice_detected` stays `false`
unless the buffer holds at least `n_samples_vad` samples, in which case the
trailing `n_samples_vad` samples are copied into the VAD window and
classified. -/
def tickVerdict (p : Params) (vad_ctx : Option VadContext) (buffer : List Sample) : Bool :=
  if p.n_samples_vad ≤ buffer.length then
    detect_voice_activity vad_ctx (lastN p.n_samples_vad buffer) p.vad_thold
  else false

/-- Ghost instrumentation of the verdict computation: number of
`whisper_vad_detect_speech` calls made on one tick. -/
def tickVerdict_detect_calls (p : Params) (vad_ctx : Option VadContext)
    (buffer : List Sample) : Nat :=
  if p.n_samples_vad ≤ buffer.length then
    detect_voice_activity_detect_calls vad_ctx (lastN p.n_samples_vad buffer)
  else 0

/-- Number of samples appended while in speech (lines 362-363):
`min(elapsed_time_ms * WHISPER_SAMPLE_RATE / 1000, buffer.size())`. -/
def newSampleCount (elapsed_time_ms : Nat) (buffer : List Sample) : Nat :=
  min ((elapsed_time_ms * WHISPER_SAMPLE_RATE) / 1000) buffer.length

/-- Observable outcome of one loop iteration: the new state, the segment
handed to `transcribe_audio_segment` (if this tick finalized one), the
number of whisper-model invocations (`whisper_full` runs; an empty segment
short-circuits without invoking it), and the lines printed to stdout
(each printed as `text` followed by a newline and a flush, lines 392-395). -/
structure TickResult where
  state : LoopState
  finalized : Option (List Sample)
  invocations : Nat
  emitted : List String
deriving DecidableEq

/-- Embedding of one iteration of the main loop (lines 333-401), given the
buffer returned by `audio.get` and the elapsed time since the previous
fetch.  Order mirrors the source: verdict (352-358), accumulate while in
speech (360-367), silence-to-speech start (369-380), speech-to-silence
finalize (382-400). -/
def tick (p : Params) (co : Collaborators) (s : LoopState) (buffer : List Sample)
    (elapsed_time_ms : Nat) : TickResult :=
  let voice_detected := tickVerdict p co.vad_ctx buffer
  let seg1 :=
    if s.in_speech then
      s.pcmf32_segment ++ lastN (newSampleCount elapsed_time_ms buffer) buffer
    else s.pcmf32_segment
  if voice_detected && !s.in_speech then
    { state := { in_speech := true, pcmf32_segment := lastN p.n_samples_vad buffer },
      finalized := none, invocations := 0, emitted := [] }
  else if !voice_detected && s.in_speech then
    let transcribed_text := transcribe_audio_segment co.whisper_run seg1
    { state := { in_speech := false, pcmf32_segment := [] },
      finalized := some seg1,
      invocations := if seg1.isEmpty then 0 else 1,
      emitted := if transcribed_text = "" then [] else [transcribed_text] }
  else
    { state := { in_speech := s.in_speech, pcmf32_segment := seg1 },
      finalized := none, invocations := 0, emitted := [] }

/-- External input of one tick: the capture window `audio.get` returned and
the measured elapsed time in milliseconds. -/
structure TickInput where
  buffer : List Sample
  elapsed_time_ms : Nat

/-- Accumulated outcome of a run of the loop. -/
structure RunResult where
  state : LoopState
  invocations : Nat
  emitted : List String
deriving DecidableEq

/-- The main loop over a finite list of tick inputs (the loop exits when
`sdl_poll_events` reports an interrupt, line 335); nothing after the loop
(lines 403-406) transcribes or emits. -/
def runLoop (p : Params) (co : Collaborators) : LoopState → List TickInput → RunResult
  | s, [] => { state := s, invocations := 0, emitted := [] }
  | s, t :: ts =>
    let r := tick p co s t.buffer t.elapsed_time_ms
    let rest := runLoop p co r.state ts
    { state := rest.state, invocations := r.invocations + rest.invocations,
      emitted := r.emitted ++ rest.emitted }

/-- Initial state of the loop (lines 288 and 330): Silence, empty segment. -/
def initState : LoopState := { in_speech := false, pcmf32_segment := [] }

/-- Outcome of command-line parsing (`whisper_params_parse`): `-h` exits 0
(line 79), an unknown argument exits 1 (line 98), an unknown language makes
parsing fail (lines 109-112) so `main` returns 1 (lines 250-252). -/
inductive ParseOutcome
  | help
  | unknownArg
  | badLanguage
  | ok
deriving DecidableEq

/-- Abstract outcomes of the startup steps of `main`: parsing, the
`--list-devices` flag, and whether each collaborator initializes
(whisper context line 268, VAD context line 280, audio device line 296). -/
structure InitWorld where
  parse : ParseOutcome
  list_devices : Bool
  whisper_ok : Bool
  vad_ok : Bool
  audio_ok : Bool
deriving DecidableEq

/-- Result of a whole program run: the process exit code, how many times
each collaborator initialization was attempted, and the outcome of the loop
when the loop was reached. -/
structure MainResult where
  exit_code : Nat
  whisper_attempts : Nat
  vad_attempts : Nat
  audio_attempts : Nat
  loop_result : Option RunResult

/-- Embedding of `main` (transcribe.cpp lines 245-407): parse (return 1 on
failure), `--list-devices` (return 0), whisper init (return 2 on failure),
VAD init (return 3 on failure), audio init (return 1 on failure), then the
loop followed by cleanup and `return 0`. -/
def main_run (w : InitWorld) (p : Params) (co : Collaborators)
    (ticks : List TickInput) : MainResult :=
  match w.parse with
  | .help => ⟨0, 0, 0, 0, none⟩
  | .unknownArg => ⟨1, 0, 0, 0, none⟩
  | .badLanguage => ⟨1, 0, 0, 0, none⟩
  | .ok =>
    if w.list_devices then ⟨0, 0, 0, 0, none⟩
    else if w.whisper_ok = false then ⟨2, 1, 0, 0, none⟩
    else if w.vad_ok = false then ⟨3, 1, 1, 0, none⟩
    else if w.audio_ok = false then ⟨1, 1, 1, 1, none⟩
    else ⟨0, 1, 1, 1, some (runLoop p co initState ticks)⟩

/-- Concatenated stdout produced by a list of emitted texts: each call is
`printf("%s\n", text)` followed by `fflush(stdout)` (lines 393-394). -/
def stdout_of (emitted : List String) : String :=
  String.join (emitted.map (fun t => t ++ "\n"))

/-- The invariant relating the state flag to the segment buffer: whenever
the loop is in Silence, the segment buffer is empty. -/
def seg_inv (s : LoopState) : Prop := s.in_speech = false → s.pcmf32_segment = []

/-! Concrete collaborator instances used to exercise the model. -/

/-- A detector that always succeeds and reports probabilities 0.4 and 0.6
for its two sub-windows.  The probabilities are written with `mkRat` so
that concrete instances evaluate inside the kernel. -/
def ctx04 : VadContext := ⟨fun _ => true, fun _ => some [mkRat 2 5, mkRat 3 5]⟩

/-- A detector whose detect call always fails. -/
def ctxFail : VadContext := ⟨fun _ => false, fun _ => none⟩

/-- A detector that always succeeds and reports a single probability 1. -/
def ctxVoice : VadContext := ⟨fun _ => true, fun _ => some [1]⟩

/-- Collaborators with the always-voice detector and a whisper model that
returns the text "x". -/
def coVoice : Collaborators := ⟨some ctxVoice, fun _ => some ["x"]⟩

/-- Collaborators with no VAD context and a whisper model that returns the
text "hi". -/
def co1 : Collaborators := ⟨none, fun _ => some ["hi"]⟩

/-- Parameters with a two-sample VAD window and threshold 0.5. -/
def p1 : Params := ⟨2, mkRat 1 2⟩

/-- Parameters with a one-sample VAD window and threshold 0.5. -/
def pV : Params := ⟨1, mkRat 1 2⟩

/-- The `mkRat` fixture values denote the decimal probabilities 0.5, 0.4
and 0.6 of the spec. -/
theorem mkRat_fixture_values :
    (mkRat 1 2 : ℚ) = 1/2 ∧ (mkRat 2 5 : ℚ) = 2/5 ∧ (mkRat 3 5 : ℚ) = 3/5 := by
  norm_num [mkRat]

/-- A startup world in which parsing succeeds and every collaborator
initializes. -/
def wOk : InitWorld := ⟨ParseOutcome.ok, false, true, true, true⟩

/-! Helper lemmas about lists, trimming and the tick function. -/

/-- Length of the trailing slice: `lastN n l` has `min n l.length`
elements. -/
theorem lastN_length {α} (n : Nat) (l : List α) :
    (lastN n l).length = min n l.length := by
  simp only [lastN, List.length_drop]
  omega

/-- The per-tick append count never exceeds the buffer length, so the
appended slice has exactly `newSampleCount` elements. -/
theorem lastN_newSampleCount_length (e : Nat) (buf : List Sample) :
    (lastN (newSampleCount e buf) buf).length = newSampleCount e buf := by
  rw [lastN_length]
  exact Nat.min_eq_left (Nat.min_le_right _ _)

/-- Dropping a satisfied prefix twice is the same as dropping it once. -/
theorem dropWhile_dropWhile {α} (p : α → Bool) (l : List α) :
    List.dropWhile p (List.dropWhile p l) = List.dropWhile p l := by
  induction l with
  | nil => simp
  | cons b t ih =>
    by_cases hb : p b
    · simpa [List.dropWhile_cons, hb] using ih
    · simp [List.dropWhile_cons, hb]

/-- The head of a nonempty `dropWhile` result does not satisfy the
predicate. -/
theorem dropWhile_head_false {α} (p : α → Bool) (l : List α) (a : α) (t : List α)
    (h : List.dropWhile p l = a :: t) : p a = false := by
  induction l with
  | nil => simp [List.dropWhile] at h
  | cons b tl ih =>
    by_cases hb : p b
    · exact ih (by simpa [List.dropWhile_cons, hb] using h)
    · rw [List.dropWhile_cons, if_neg (by simpa using hb)] at h
      cases h
      simpa using hb

/-- Appending an unsatisfying element commutes with `dropWhile`. -/
theorem dropWhile_append_last {α} (p : α → Bool) (a : α) (ha : p a = false)
    (l : List α) :
    List.dropWhile p (l ++ [a]) = List.dropWhile p l ++ [a] := by
  induction l with
  | nil => simp [List.dropWhile, ha]
  | cons b t ih =>
    by_cases hb : p b
    · simpa [List.dropWhile_cons, hb] using ih
    · simp [List.dropWhile_cons, hb]

/-- The two-sided whitespace strip is idempotent at the level of character
lists. -/
theorem trim_core_idem {α} (p : α → Bool) (l : List α) :
    ((((((l.dropWhile p).reverse.dropWhile p).reverse).dropWhile p).reverse).dropWhile p).reverse
      = ((l.dropWhile p).reverse.dropWhile p).reverse := by
  cases hA : l.dropWhile p with
  | nil => simp
  | cons a t =>
    have ha : p a = false := dropWhile_head_false p l a t hA
    simp [List.reverse_cons, List.reverse_append, List.reverse_reverse,
      List.dropWhile_cons, ha, dropWhile_append_last p a ha, dropWhile_dropWhile]

/-- Trimming the empty string gives the empty string. -/
theorem trimString_empty : trimString "" = "" := rfl

/-- Trimming is idempotent. -/
theorem trimString_idem (s : String) : trimString (trimString s) = trimString s := by
  unfold trimString
  exact congrArg String.mk (trim_core_idem Char.isWhitespace s.data)

/-- The result of `transcribe_audio_segment` is already trimmed. -/
theorem transcribe_trimmed (r : List Sample → Option (List String)) (seg : List Sample) :
    trimString (transcribe_audio_segment r seg) = transcribe_audio_segment r seg := by
  unfold transcribe_audio_segment
  by_cases hseg : seg.isEmpty
  · simp [hseg, trimString_empty]
  · simp only [hseg]
    cases r seg with
    | none => simpa using trimString_empty
    | some texts => simpa using trimString_idem (String.join texts)

/-- The strict comparison against a left fold of `max` holds exactly when
some listed value (or the seed) strictly exceeds the bound. -/
theorem lt_foldl_max_iff (t : ℚ) (ps : List ℚ) (p : ℚ) :
    t < ps.foldl max p ↔ t < p ∨ ∃ q ∈ ps, t < q := by
  induction ps generalizing p with
  | nil => simp
  | cons a rest ih =>
    rw [List.foldl_cons, ih (max p a)]
    constructor
    · rintro (h | h)
      · rcases lt_max_iff.mp h with h | h
        · exact Or.inl h
        · exact Or.inr ⟨a, by simp, h⟩
      · rcases h with ⟨q, hq, ht⟩
        exact Or.inr ⟨q, by simp [hq], ht⟩
    · rintro (h | ⟨q, hq, ht⟩)
      · exact Or.inl (lt_max_iff.mpr (Or.inl h))
      · rcases List.mem_cons.mp hq with rfl | hq
        · exact Or.inl (lt_max_iff.mpr (Or.inr ht))
        · exact Or.inr ⟨q, hq, ht⟩

/-- A true verdict requires the buffer to hold a full VAD window. -/
theorem tickVerdict_le (p : Params) (v : Option VadContext) (buf : List Sample)
    (h : tickVerdict p v buf = true) : p.n_samples_vad ≤ buf.length := by
  by_contra hn
  unfold tickVerdict at h
  rw [if_neg hn] at h
  exact Bool.false_ne_true h

/-- Branch lemma: Silence tick with a voice verdict seeds a new segment
from the trailing VAD window (lines 369-380). -/
theorem tick_start (p : Params) (co : Collaborators) (s : LoopState)
    (buf : List Sample) (e : Nat)
    (hs : s.in_speech = false) (hv : tickVerdict p co.vad_ctx buf = true) :
    tick p co s buf e = ⟨⟨true, lastN p.n_samples_vad buf⟩, none, 0, []⟩ := by
  unfold tick
  simp [hs, hv]

/-- Branch lemma: Speech tick with a voice verdict appends the new trailing
samples (lines 360-367). -/
theorem tick_continue (p : Params) (co : Collaborators) (s : LoopState)
    (buf : List Sample) (e : Nat)
    (hs : s.in_speech = true) (hv : tickVerdict p co.vad_ctx buf = true) :
    tick p co s buf e
      = ⟨⟨true, s.pcmf32_segment ++ lastN (newSampleCount e buf) buf⟩, none, 0, []⟩ := by
  unfold tick
  simp [hs, hv]

/-- Branch lemma: Speech tick with a silence verdict appends the new
trailing samples and finalizes the segment (lines 360-367, 382-400). -/
theorem tick_finalize (p : Params) (co : Collaborators) (s : LoopState)
    (buf : List Sample) (e : Nat)
    (hs : s.in_speech = true) (hv : tickVerdict p co.vad_ctx buf = false) :
    tick p co s buf e
      = ⟨⟨false, []⟩,
         some (s.pcmf32_segment ++ lastN (newSampleCount e buf) buf),
         if (s.pcmf32_segment ++ lastN (newSampleCount e buf) buf).isEmpty then 0 else 1,
         if transcribe_audio_segment co.whisper_run
              (s.pcmf32_segment ++ lastN (newSampleCount e buf) buf) = ""
         then [] else
           [transcribe_audio_segment co.whisper_run
              (s.pcmf32_segment ++ lastN (newSampleCount e buf) buf)]⟩ := by
  unfold tick
  simp [hs, hv]

/-- Branch lemma: Silence tick with a silence verdict changes nothing. -/
theorem tick_idle (p : Params) (co : Collaborators) (s : LoopState)
    (buf : List Sample) (e : Nat)
    (hs : s.in_speech = false) (hv : tickVerdict p co.vad_ctx buf = false) :
    tick p co s buf e = ⟨s, none, 0, []⟩ := by
  obtain ⟨f, seg⟩ := s
  cases f
  · unfold tick
    simp [hv] at hs ⊢
  · simp at hs

/-- Under all-voice verdicts a run of the loop never transcribes or emits,
and from the Speech state it stays in Speech, growing the segment by
exactly the per-tick capped sample counts. -/
theorem runLoop_all_voice (p : Params) (co : Collaborators) (ticks : List TickInput)
    (s : LoopState) (hv : ∀ t ∈ ticks, tickVerdict p co.vad_ctx t.buffer = true) :
    (runLoop p co s ticks).invocations = 0 ∧
    (runLoop p co s ticks).emitted = [] ∧
    (s.in_speech = true →
      (runLoop p co s ticks).state.in_speech = true ∧
      (runLoop p co s ticks).state.pcmf32_segment.length
        = s.pcmf32_segment.length
          + (ticks.map (fun t => newSampleCount t.elapsed_time_ms t.buffer)).sum) := by
  induction ticks generalizing s with
  | nil => simp [runLoop]
  | cons t ts ih =>
    have hvt : tickVerdict p co.vad_ctx t.buffer = true := hv t (by simp)
    have hvts : ∀ u ∈ ts, tickVerdict p co.vad_ctx u.buffer = true :=
      fun u hu => hv u (by simp [hu])
    by_cases hs : s.in_speech
    · have ht := tick_continue p co s t.buffer t.elapsed_time_ms hs hvt
      have hrec := ih ⟨true, s.pcmf32_segment ++ lastN (newSampleCount t.elapsed_time_ms t.buffer) t.buffer⟩ hvts
      refine ⟨?_, ?_, ?_⟩
      · simp [runLoop, ht, hrec.1]
      · simp [runLoop, ht, hrec.2.1]
      · intro _
        have h3 := hrec.2.2 rfl
        constructor
        · simp [runLoop, ht, h3.1]
        · simp only [runLoop, ht]
          rw [h3.2]
          simp [lastN_newSampleCount_length]
          ring
    · have hs0 : s.in_speech = false := by simpa using hs
      have ht := tick_start p co s t.buffer t.elapsed_time_ms hs0 hvt
      have hrec := ih ⟨true, lastN p.n_samples_vad t.buffer⟩ hvts
      refine ⟨?_, ?_, ?_⟩
      · simp [runLoop, ht, hrec.1]
      · simp [runLoop, ht, hrec.2.1]
      · intro hcontra
        rw [hcontra] at hs0
        exact absurd hs0 (by simp)

/-- Entries of the emission list of a finalizing tick are nonempty and
already trimmed. -/
theorem emitted_entry_ok (r : List Sample → Option (List String)) (seg : List Sample)
    (t : String)
    (ht : t ∈ (if transcribe_audio_segment r seg = "" then []
               else [transcribe_audio_segment r seg])) :
    t ≠ "" ∧ trimString t = t := by
  by_cases h0 : transcribe_audio_segment r seg = ""
  · rw [if_pos h0] at ht
    simp at ht
  · rw [if_neg h0] at ht
    rcases List.mem_singleton.mp ht with rfl
    exact ⟨h0, transcribe_trimmed r seg⟩

/-! Claim theorems. -/

/-- C1 (amended): on a tick whose CaptureWindow holds fewer samples than
the configured VAD window, no VAD verdict is computed (the detector is not
invoked and voice_detected stays false); if the session is in Silence the
tick is a no-op: state, segment, finalization, invocations and output are
all unchanged.  (In the Speech state such a tick instead behaves as a
silence verdict and finalizes the segment; see the counterexample.) -/
theorem C1_short_window_silence_noop (p : Params) (co : Collaborators)
    (s : LoopState) (buf : List Sample) (e : Nat)
    (hshort : buf.length < p.n_samples_vad) (hsil : s.in_speech = false) :
    tickVerdict p co.vad_ctx buf = false ∧
    tickVerdict_detect_calls p co.vad_ctx buf = 0 ∧
    tick p co s buf e = ⟨s, none, 0, []⟩ := by
  have hv : tickVerdict p co.vad_ctx buf = false := by
    unfold tickVerdict
    rw [if_neg (by omega)]
  refine ⟨hv, ?_, tick_idle p co s buf e hsil hv⟩
  unfold tickVerdict_detect_calls
  rw [if_neg (by omega)]

/-- C1 witness: a concrete short-window Silence tick is a no-op. -/
theorem C1_short_window_silence_noop_witness :
    ([5] : List Sample).length < p1.n_samples_vad ∧ initState.in_speech = false ∧
    tick p1 co1 initState [5] 7 = ⟨initState, none, 0, []⟩ :=
  ⟨by decide, rfl,
   (C1_short_window_silence_noop p1 co1 initState [5] 7 (by decide) rfl).2.2⟩

/-- C1 counterexample: a short-window tick taken in the Speech state is not
a no-op: new trailing samples are appended, the segment is finalized, the
transcription collaborator is invoked once, and the state flips to
Silence. -/
theorem C1_cex_short_window_speech :
    ([5] : List Sample).length < p1.n_samples_vad ∧
    (tick p1 co1 ⟨true, [1]⟩ [5] 1).state.in_speech ≠ true ∧
    (tick p1 co1 ⟨true, [1]⟩ [5] 1).state.pcmf32_segment ≠ [1] ∧
    (tick p1 co1 ⟨true, [1]⟩ [5] 1).invocations = 1 := by
  decide

/-- C2: on every Speech-state tick exactly
min(elapsed_time_ms * WHISPER_SAMPLE_RATE / 1000, buffer length) trailing
samples of the CaptureWindow are appended to the segment (whether the tick
continues or finalizes it), and over any all-voice run from the Speech
state the total growth of the segment is the sum of the per-tick capped
counts. -/
theorem C2_speech_append_accounting :
    (∀ (p : Params) (co : Collaborators) (s : LoopState) (buf : List Sample) (e : Nat),
      s.in_speech = true →
      ((lastN (newSampleCount e buf) buf).length = newSampleCount e buf) ∧
      (tickVerdict p co.vad_ctx buf = true →
        (tick p co s buf e).state.pcmf32_segment
          = s.pcmf32_segment ++ lastN (newSampleCount e buf) buf) ∧
      (tickVerdict p co.vad_ctx buf = false →
        (tick p co s buf e).finalized
          = some (s.pcmf32_segment ++ lastN (newSampleCount e buf) buf))) ∧
    (∀ (p : Params) (co : Collaborators) (s : LoopState) (ticks : List TickInput),
      s.in_speech = true →
      (∀ t ∈ ticks, tickVerdict p co.vad_ctx t.buffer = true) →
      (runLoop p co s ticks).state.pcmf32_segment.length
        = s.pcmf32_segment.length
          + (ticks.map (fun t => newSampleCount t.elapsed_time_ms t.buffer)).sum) := by
  constructor
  · intro p co s buf e hs
    refine ⟨lastN_newSampleCount_length e buf, ?_, ?_⟩
    · intro hv
      rw [tick_continue p co s buf e hs hv]
    · intro hv
      rw [tick_finalize p co s buf e hs hv]
  · intro p co s ticks hs hv
    exact ((runLoop_all_voice p co ticks s hv).2.2 hs).2

/-- C2 witness: concrete Speech-state ticks under both verdicts, and a
two-tick all-voice run whose segment grows by the summed capped counts. -/
theorem C2_speech_append_accounting_witness :
    (tick pV coVoice ⟨true, [7]⟩ [0] 500).state.pcmf32_segment
      = [7] ++ lastN (newSampleCount 500 [0]) [0] ∧
    (tick p1 co1 ⟨true, [7]⟩ [5] 1).finalized
      = some ([7] ++ lastN (newSampleCount 1 [5]) [5]) ∧
    (runLoop pV coVoice ⟨true, [7]⟩ [⟨[0], 500⟩, ⟨[0], 500⟩]).state.pcmf32_segment.length
      = ([7] : List Sample).length
        + (([⟨[0], 500⟩, ⟨[0], 500⟩] : List TickInput).map
            (fun t => newSampleCount t.elapsed_time_ms t.buffer)).sum :=
  ⟨(C2_speech_append_accounting.1 pV coVoice ⟨true, [7]⟩ [0] 500 rfl).2.1 (by decide),
   (C2_speech_append_accounting.1 p1 co1 ⟨true, [7]⟩ [5] 1 rfl).2.2 (by decide),
   C2_speech_append_accounting.2 pV coVoice ⟨true, [7]⟩ [⟨[0], 500⟩, ⟨[0], 500⟩]
     rfl (by decide)⟩

/-- C3: on every Silence-to-Speech transition the new segment consists
exactly of the trailing n_samples_vad samples of the CaptureWindow of the
tick, previous content discarded, and no transcription happens. -/
theorem C3_lookback_seed (p : Params) (co : Collaborators) (s : LoopState)
    (buf : List Sample) (e : Nat)
    (hs : s.in_speech = false) (hv : tickVerdict p co.vad_ctx buf = true) :
    (tick p co s buf e).state.pcmf32_segment = lastN p.n_samples_vad buf ∧
    (tick p co s buf e).state.in_speech = true ∧
    (lastN p.n_samples_vad buf).length = p.n_samples_vad ∧
    (tick p co s buf e).invocations = 0 ∧
    (tick p co s buf e).emitted = [] := by
  have hle := tickVerdict_le p co.vad_ctx buf hv
  rw [tick_start p co s buf e hs hv]
  refine ⟨rfl, rfl, ?_, rfl, rfl⟩
  rw [lastN_length]
  omega

/-- C3 witness: a concrete transition discards stale content and seeds from
the window. -/
theorem C3_lookback_seed_witness :
    (tick pV coVoice ⟨false, [9, 9]⟩ [0] 0).state.pcmf32_segment
      = lastN pV.n_samples_vad [0] ∧
    (tick pV coVoice ⟨false, [9, 9]⟩ [0] 0).state.in_speech = true :=
  ⟨(C3_lookback_seed pV coVoice ⟨false, [9, 9]⟩ [0] 0 rfl (by decide)).1,
   (C3_lookback_seed pV coVoice ⟨false, [9, 9]⟩ [0] 0 rfl (by decide)).2.1⟩

/-- C4: the VAD decision reduces the probability array of the detector by
its maximum and compares it to the threshold with strict greater-than: the
verdict is voice exactly when some reported probability strictly exceeds
the threshold. -/
theorem C4_vad_max_reduction (ctx : VadContext) (samples : List Sample)
    (q0 : ℚ) (qs : List ℚ) (thold : ℚ)
    (hne : samples.isEmpty = false)
    (hdet : ctx.detect_speech samples = true)
    (hprobs : ctx.vad_probs samples = some (q0 :: qs)) :
    (detect_voice_activity (some ctx) samples thold = true
      ↔ ∃ q ∈ q0 :: qs, thold < q) := by
  simp [detect_voice_activity, hne, hdet, hprobs, lt_foldl_max_iff]

/-- C4 witness: probabilities 0.4 and 0.6 give voice at threshold 0.5 and
no voice at threshold 0.6 (strict greater-than). -/
theorem C4_vad_max_reduction_witness :
    detect_voice_activity (some ctx04) [0] (mkRat 1 2) = true ∧
    detect_voice_activity (some ctx04) [0] (mkRat 3 5) = false := by
  constructor
  · exact (C4_vad_max_reduction ctx04 [0] (mkRat 2 5) [mkRat 3 5] (mkRat 1 2)
      rfl rfl rfl).mpr ⟨mkRat 3 5, by decide, by decide⟩
  · have h := C4_vad_max_reduction ctx04 [0] (mkRat 2 5) [mkRat 3 5] (mkRat 3 5)
      rfl rfl rfl
    cases hb : detect_voice_activity (some ctx04) [0] (mkRat 3 5)
    · rfl
    · have hq : ¬ ∃ q ∈ [mkRat 2 5, mkRat 3 5], mkRat 3 5 < q := by decide
      exact absurd (h.mp hb) hq

/-- C5: a run whose verdicts are all voice (such as [voice, voice, voice])
never invokes the transcription collaborator and emits nothing; the
process then exits cleanly with code 0, discarding the open segment
(no flush on shutdown). -/
theorem C5_open_segment_discarded (w : InitWorld) (p : Params) (co : Collaborators)
    (ticks : List TickInput)
    (hp : w.parse = ParseOutcome.ok) (hl : w.list_devices = false)
    (hw : w.whisper_ok = true) (hvad : w.vad_ok = true) (ha : w.audio_ok = true)
    (hvoice : ∀ t ∈ ticks, tickVerdict p co.vad_ctx t.buffer = true) :
    (main_run w p co ticks).exit_code = 0 ∧
    (main_run w p co ticks).loop_result = some (runLoop p co initState ticks) ∧
    (runLoop p co initState ticks).invocations = 0 ∧
    (runLoop p co initState ticks).emitted = [] := by
  have hrun := runLoop_all_voice p co ticks initState hvoice
  refine ⟨?_, ?_, hrun.1, hrun.2.1⟩ <;>
    simp [main_run, hp, hl, hw, hvad, ha]

/-- C5 witness: three concrete voice ticks yield zero transcription
invocations, no output and a clean exit. -/
theorem C5_open_segment_discarded_witness :
    (main_run wOk pV coVoice [⟨[0], 500⟩, ⟨[0], 500⟩, ⟨[0], 500⟩]).exit_code = 0 ∧
    (runLoop pV coVoice initState [⟨[0], 500⟩, ⟨[0], 500⟩, ⟨[0], 500⟩]).invocations = 0 ∧
    (runLoop pV coVoice initState [⟨[0], 500⟩, ⟨[0], 500⟩, ⟨[0], 500⟩]).emitted = [] := by
  have h := C5_open_segment_discarded wOk pV coVoice [⟨[0], 500⟩, ⟨[0], 500⟩, ⟨[0], 500⟩]
    rfl rfl rfl rfl rfl (by decide)
  exact ⟨h.1, h.2.2.1, h.2.2.2⟩

/-- C6: the VAD decision on a zero-length window returns false and never
invokes the detector. -/
theorem C6_empty_window_no_detect (vad_ctx : Option VadContext) (thold : ℚ) :
    detect_voice_activity vad_ctx [] thold = false ∧
    detect_voice_activity_detect_calls vad_ctx [] = 0 := by
  cases vad_ctx <;>
    simp [detect_voice_activity, detect_voice_activity_detect_calls]

/-- C7: a detector failure (failed detect call, null or empty probability
array) yields verdict false at the decision level, and hence a silence
verdict for any tick whose VAD window it classified: the failure is
absorbed as no speech rather than propagated as an error. -/
theorem C7_detector_failure_no_speech (ctx : VadContext) (samples : List Sample)
    (thold : ℚ)
    (h : ctx.detect_speech samples = false ∨ ctx.vad_probs samples = none ∨
         ctx.vad_probs samples = some []) :
    detect_voice_activity (some ctx) samples thold = false ∧
    ∀ (p : Params) (buf : List Sample),
      thold = p.vad_thold → samples = lastN p.n_samples_vad buf →
      tickVerdict p (some ctx) buf = false := by
  have hfalse : detect_voice_activity (some ctx) samples thold = false := by
    by_cases he : samples.isEmpty
    · simp [detect_voice_activity, he]
    · rcases h with h | h | h
      · simp [detect_voice_activity, he, h]
      · by_cases hd : ctx.detect_speech samples <;>
          simp [detect_voice_activity, he, h, hd]
      · by_cases hd : ctx.detect_speech samples <;>
          simp [detect_voice_activity, he, h, hd]
  refine ⟨hfalse, ?_⟩
  intro p buf hth hsamp
  unfold tickVerdict
  by_cases hl : p.n_samples_vad ≤ buf.length
  · rw [if_pos hl, ← hsamp, ← hth, hfalse]
  · rw [if_neg hl]

/-- C7 witness: a concretely failing detector is classified as silence at
the decision level and on a full-window tick. -/
theorem C7_detector_failure_no_speech_witness :
    detect_voice_activity (some ctxFail) [0] (mkRat 1 2) = false ∧
    tickVerdict ⟨1, mkRat 1 2⟩ (some ctxFail) [0] = false := by
  have h := C7_detector_failure_no_speech ctxFail [0] (mkRat 1 2) (Or.inl rfl)
  exact ⟨h.1, h.2 ⟨1, mkRat 1 2⟩ [0] rfl rfl⟩

/-- C8: a finalizing tick emits exactly one line when the trimmed
transcription text is nonempty and none otherwise; every emitted text is
nonempty and already trimmed, and each emission writes the text followed
by one newline. -/
theorem C8_trimmed_emission (p : Params) (co : Collaborators) (s : LoopState)
    (buf : List Sample) (e : Nat)
    (hs : s.in_speech = true) (hv : tickVerdict p co.vad_ctx buf = false) :
    ((tick p co s buf e).emitted
      = (if transcribe_audio_segment co.whisper_run
             (s.pcmf32_segment ++ lastN (newSampleCount e buf) buf) = ""
         then []
         else [transcribe_audio_segment co.whisper_run
                 (s.pcmf32_segment ++ lastN (newSampleCount e buf) buf)])) ∧
    (∀ t ∈ (tick p co s buf e).emitted,
      t ≠ "" ∧ trimString t = t ∧ stdout_of [t] = t ++ "\n") ∧
    (tick p co s buf e).emitted.length ≤ 1 := by
  rw [tick_finalize p co s buf e hs hv]
  refine ⟨rfl, ?_, ?_⟩
  · intro t ht
    have hok := emitted_entry_ok co.whisper_run
      (s.pcmf32_segment ++ lastN (newSampleCount e buf) buf) t ht
    refine ⟨hok.1, hok.2, ?_⟩
    simp [stdout_of, String.join]
  · by_cases h0 : transcribe_audio_segment co.whisper_run
        (s.pcmf32_segment ++ lastN (newSampleCount e buf) buf) = "" <;>
      simp [h0]

/-- C8 witness: a concrete finalizing tick emits the single trimmed
nonempty line "hi". -/
theorem C8_trimmed_emission_witness :
    (tick p1 co1 ⟨true, [1]⟩ [5] 1).emitted
      = (if transcribe_audio_segment co1.whisper_run
             ([1] ++ lastN (newSampleCount 1 [5]) [5]) = ""
         then []
         else [transcribe_audio_segment co1.whisper_run
                 ([1] ++ lastN (newSampleCount 1 [5]) [5])]) ∧
    ("hi" ≠ "" ∧ trimString "hi" = "hi" ∧ stdout_of ["hi"] = "hi" ++ "\n") ∧
    (tick p1 co1 ⟨true, [1]⟩ [5] 1).emitted.length ≤ 1 :=
  ⟨(C8_trimmed_emission p1 co1 ⟨true, [1]⟩ [5] 1 rfl (by decide)).1,
   (C8_trimmed_emission p1 co1 ⟨true, [1]⟩ [5] 1 rfl (by decide)).2.1 "hi" (by decide),
   (C8_trimmed_emission p1 co1 ⟨true, [1]⟩ [5] 1 rfl (by decide)).2.2⟩

/-- C9: the process exit code identifies the failure class: 1 for an
argument-parsing failure, 0 for help, device listing or a clean run, 2 for
a whisper-model initialization failure, 3 for a VAD-model initialization
failure and 1 for an audio initialization failure; each collaborator
initialization is attempted at most once (no retry). -/
theorem C9_exit_codes (w : InitWorld) (p : Params) (co : Collaborators)
    (ticks : List TickInput) :
    ((main_run w p co ticks).whisper_attempts ≤ 1 ∧
     (main_run w p co ticks).vad_attempts ≤ 1 ∧
     (main_run w p co ticks).audio_attempts ≤ 1) ∧
    (w.parse = ParseOutcome.unknownArg ∨ w.parse = ParseOutcome.badLanguage →
      (main_run w p co ticks).exit_code = 1) ∧
    (w.parse = ParseOutcome.help → (main_run w p co ticks).exit_code = 0) ∧
    (w.parse = ParseOutcome.ok → w.list_devices = false → w.whisper_ok = false →
      (main_run w p co ticks).exit_code = 2) ∧
    (w.parse = ParseOutcome.ok → w.list_devices = false → w.whisper_ok = true →
      w.vad_ok = false → (main_run w p co ticks).exit_code = 3) ∧
    (w.parse = ParseOutcome.ok → w.list_devices = false → w.whisper_ok = true →
      w.vad_ok = true → w.audio_ok = false → (main_run w p co ticks).exit_code = 1) ∧
    (w.parse = ParseOutcome.ok → w.list_devices = false → w.whisper_ok = true →
      w.vad_ok = true → w.audio_ok = true → (main_run w p co ticks).exit_code = 0) := by
  obtain ⟨pa, ld, wo, vo, ao⟩ := w
  cases pa <;> cases ld <;> cases wo <;> cases vo <;> cases ao <;>
    simp [main_run]

/-- C9 witness: each failure class at a concrete world produces its exit
code. -/
theorem C9_exit_codes_witness :
    (main_run ⟨ParseOutcome.ok, false, false, true, true⟩ pV coVoice []).exit_code = 2 ∧
    (main_run ⟨ParseOutcome.ok, false, true, false, true⟩ pV coVoice []).exit_code = 3 ∧
    (main_run ⟨ParseOutcome.ok, false, true, true, false⟩ pV coVoice []).exit_code = 1 ∧
    (main_run ⟨ParseOutcome.unknownArg, true, true, true, true⟩ pV coVoice []).exit_code = 1 ∧
    (main_run wOk pV coVoice []).exit_code = 0 :=
  ⟨(C9_exit_codes ⟨ParseOutcome.ok, false, false, true, true⟩ pV coVoice []).2.2.2.1
      rfl rfl rfl,
   (C9_exit_codes ⟨ParseOutcome.ok, false, true, false, true⟩ pV coVoice []).2.2.2.2.1
      rfl rfl rfl rfl,
   (C9_exit_codes ⟨ParseOutcome.ok, false, true, true, false⟩ pV coVoice []).2.2.2.2.2.1
      rfl rfl rfl rfl rfl,
   (C9_exit_codes ⟨ParseOutcome.unknownArg, true, true, true, true⟩ pV coVoice []).2.1
      (Or.inl rfl),
   (C9_exit_codes wOk pV coVoice []).2.2.2.2.2.2 rfl rfl rfl rfl rfl⟩

/-- C10: the invariant that the segment buffer is empty whenever the state
is Silence holds at startup and is preserved by every tick of the loop. -/
theorem C10_silence_empty_segment :
    seg_inv initState ∧
    ∀ (p : Params) (co : Collaborators) (s : LoopState) (buf : List Sample) (e : Nat),
      seg_inv s → seg_inv (tick p co s buf e).state := by
  constructor
  · intro _
    rfl
  · intro p co s buf e hinv
    by_cases hs : s.in_speech <;> by_cases hv : tickVerdict p co.vad_ctx buf
    · rw [tick_continue p co s buf e hs hv]
      intro h
      exact absurd h (by simp)
    · rw [tick_finalize p co s buf e hs (by simpa using hv)]
      intro _
      rfl
    · rw [tick_start p co s buf e (by simpa using hs) hv]
      intro h
      exact absurd h (by simp)
    · rw [tick_idle p co s buf e (by simpa using hs) (by simpa using hv)]
      exact hinv

/-- C10 witness: the invariant holds at startup and after a concrete
tick. -/
theorem C10_silence_empty_segment_witness :
    seg_inv initState ∧ seg_inv (tick pV coVoice initState [0] 500).state :=
  ⟨C10_silence_empty_segment.1,
   C10_silence_empty_segment.2 pV coVoice initState [0] 500 (fun _ => rfl)⟩

end Transcribe
